import Mathlib

/-!
Verification development for the `fundingpips_scalper` repository.

The two modules the claims touch are embedded shallowly:
  * `fundingpips_reward.py` — the reward evaluator (namespace `Reward`);
  * `strategy.py` — the signal-to-trade pipeline (namespace `Strategy`).

Python floats are modelled as exact rationals (`ℚ`); `NaN` cells of a pandas
series are modelled as `none : Option ℚ`, with every comparison against a
`none` being false, exactly as a comparison against `NaN` is false in pandas.
Square roots (`np.sqrt`, `np.std`) are not rational, so every definition that
needs one takes the float square-root function as an explicit argument
`sqrtF : ℚ → ℚ`; no theorem below depends on its values.
-/

namespace Reward

/-- A trade record as consumed by `fundingpips_reward.evaluate`.
The evaluator only ever uses a record's timestamp at calendar-day
granularity (`.dt.date` in `calculate_drawdowns`, `.normalize()` in
`trading_days`), so the timestamp is modelled by the UTC day it falls on.
`start_equity` is the optional field read off the first record. -/
structure Trade where
  pnl : ℚ
  day : ℤ
  start_equity : Option ℚ
deriving DecidableEq

/-- `trades[0].get("start_equity", 10000) if trades else 10000`
(lines 11 and 21 of `fundingpips_reward.py`). -/
def startEquity (trades : List Trade) : ℚ :=
  match trades with
  | [] => 10000
  | t :: _ => t.start_equity.getD 10000

/-- `np.array([t["pnl"] for t in trades])`. -/
def pnls (trades : List Trade) : List ℚ := trades.map (·.pnl)

/-- `calculate_net_profit`: `100 * pnl.sum() / start_equity if start_equity > 0 else 0.0`. -/
def calculate_net_profit (trades : List Trade) : ℚ :=
  if 0 < startEquity trades then 100 * (pnls trades).sum / startEquity trades else 0

/-- `start_equity + np.cumsum(pnl)`: entry `i` is `start_equity + pnl[0] + ... + pnl[i]`. -/
def equity_curve (trades : List Trade) : List ℚ :=
  ((pnls trades).scanl (· + ·) (startEquity trades)).drop 1

/-- `np.maximum.accumulate`: running maximum of a list. -/
def running_max : List ℚ → List ℚ
  | [] => []
  | x :: xs => xs.scanl max x

/-- `(peak - equity_curve) / peak`, elementwise. -/
def dd_list (eq : List ℚ) : List ℚ :=
  List.zipWith (fun p e => (p - e) / p) (running_max eq) eq

/-- `np.max` over a drawdown list. The call sites apply it to drawdown
lists whose first entry is `0` (the first peak is the first equity value),
so folding from `0` is the exact maximum there. -/
def list_max (l : List ℚ) : ℚ := l.foldl max 0

/-- The equity values of the rows whose timestamp falls on day `d`, in
original row order — one group of `df.groupby("day")`. -/
def day_equities (trades : List Trade) (d : ℤ) : List ℚ :=
  ((trades.zip (equity_curve trades)).filter (fun te => te.1.day == d)).map (·.2)

/-- `calculate_drawdowns` (lines 15–36): overall peak-to-trough drawdown of
the cumulative equity curve, and the maximum per-calendar-day drawdown.
`groupby` visits the distinct days in sorted order; since only the maximum
over the groups is kept, visiting them in first-occurrence order (`dedup`)
yields the same value. -/
def calculate_drawdowns (trades : List Trade) : ℚ × ℚ :=
  if trades.isEmpty then (0, 0)
  else
    let eq := equity_curve trades
    let max_dd := list_max (dd_list eq)
    let days := (trades.map (·.day)).dedup
    let max_daily :=
      days.foldl (fun acc d => max acc (list_max (dd_list (day_equities trades d)))) 0
    (max_dd, max_daily)

/-- Arithmetic mean (call sites guarantee a non-empty list). -/
def list_mean (l : List ℚ) : ℚ := l.sum / l.length

/-- Population variance — `np.std(l)` is `sqrtF` of this (numpy default `ddof=0`). -/
def list_var (l : List ℚ) : ℚ := list_mean (l.map (fun x => (x - list_mean l) ^ 2))

/-- `np.diff(equity_curve) / equity_curve[:-1]`: simple period-over-period returns. -/
def period_returns (eq : List ℚ) : List ℚ :=
  List.zipWith (fun a b => (b - a) / a) eq (eq.drop 1)

/-- `calculate_sharpe` (lines 38–49): `0` for fewer than two trades or zero
standard deviation, else `returns.mean() / (returns.std() + 1e-8) * np.sqrt(252)`. -/
def calculate_sharpe (sqrtF : ℚ → ℚ) (trades : List Trade) : ℚ :=
  if trades.length < 2 then 0
  else
    let returns := period_returns (equity_curve trades)
    if sqrtF (list_var returns) = 0 then 0
    else list_mean returns / (sqrtF (list_var returns) + 1 / 10 ^ 8) * sqrtF 252

/-- `win_rate` (lines 51–56): percentage of trades with strictly positive pnl. -/
def win_rate (trades : List Trade) : ℚ :=
  if trades.isEmpty then 0
  else 100 * ((trades.filter (fun t => decide (0 < t.pnl))).length : ℚ) / trades.length

/-- `volatility` (lines 58–63): `np.std` of the raw pnl values, `0` below two trades. -/
def volatility (sqrtF : ℚ → ℚ) (trades : List Trade) : ℚ :=
  if trades.length < 2 then 0 else sqrtF (list_var (pnls trades))

/-- `trading_days` (lines 65–69) as the source actually executes.
`ts = pd.to_datetime([t["timestamp"] for t in trades])` builds a
`DatetimeIndex` (list-like input), and a `DatetimeIndex` carries no `.dt`
accessor — `.dt` exists only on `Series` — so the next line,
`ts.dt.normalize().nunique()`, raises `AttributeError` whenever the
empty-list early return is not taken. The fallible call is modelled in
`Except`. -/
def trading_days (trades : List Trade) : Except String ℕ :=
  if trades.isEmpty then .ok 0
  else .error "AttributeError: DatetimeIndex object has no attribute dt"

/-- What line 69 was evidently written to compute (and what the module's own
tests in `tests/test_reward.py` require): the number of distinct calendar
days among the trade timestamps. Dropping the stray `.dt` —
`pd.to_datetime(...).normalize().nunique()` — computes exactly this. -/
def trading_days_intended (trades : List Trade) : ℕ :=
  ((trades.map (·.day)).dedup).length

/-- `evaluate` (lines 71–125) as the source actually executes: `0.0` for an
absent or empty log; otherwise `n_days = trading_days(trades)` is computed
before the constraint gate, so the `AttributeError` of `trading_days`
propagates (modelled by `Except.bind`). The gate and the penalty/bonus
scoring are transcribed verbatim from lines 82–125. -/
def evaluate (sqrtF : ℚ → ℚ) (trades : Option (List Trade)) : Except String ℚ :=
  match trades with
  | none => .ok 0
  | some ts =>
    if ts.length = 0 then .ok 0
    else
      let n_trades := ts.length
      (trading_days ts).bind fun n_days =>
        let net_profit := calculate_net_profit ts
        let dds := calculate_drawdowns ts
        if n_trades < 35 ∨ n_days < 5 ∨ net_profit < 10 ∨ dds.1 > 6 / 100 ∨ dds.2 > 3 / 100
        then .ok (-1000)
        else
          let sharpe := calculate_sharpe sqrtF ts
          let win := win_rate ts
          let vol := volatility sqrtF ts
          let penalty :=
            (if dds.1 > 4 / 100 then 10 * (dds.1 - 4 / 100) * 100 else 0)
            + (if vol > 5 / 1000 then (vol - 5 / 1000) * 1000 else 0)
            + (if n_trades < 40 then 5 * ((40 : ℚ) - n_trades) else 0)
          let bonus :=
            (if sharpe > 3 / 2 then 10 * (sharpe - 3 / 2) else 0)
            + (if win > 60 then (win - 60) / 2 else 0)
          .ok (net_profit - penalty + bonus)

/-- `evaluate` with the one-token fix to `trading_days` (the intent the
docstring, the spec and `tests/test_reward.py` all describe); used to check
that the rest of the evaluator matches its claims once the
`AttributeError` is out of the way. -/
def evaluate_intended (sqrtF : ℚ → ℚ) (trades : Option (List Trade)) : ℚ :=
  match trades with
  | none => 0
  | some ts =>
    if ts.length = 0 then 0
    else
      let n_trades := ts.length
      let n_days := trading_days_intended ts
      let net_profit := calculate_net_profit ts
      let dds := calculate_drawdowns ts
      if n_trades < 35 ∨ n_days < 5 ∨ net_profit < 10 ∨ dds.1 > 6 / 100 ∨ dds.2 > 3 / 100
      then -1000
      else
        let sharpe := calculate_sharpe sqrtF ts
        let win := win_rate ts
        let vol := volatility sqrtF ts
        let penalty :=
          (if dds.1 > 4 / 100 then 10 * (dds.1 - 4 / 100) * 100 else 0)
          + (if vol > 5 / 1000 then (vol - 5 / 1000) * 1000 else 0)
          + (if n_trades < 40 then 5 * ((40 : ℚ) - n_trades) else 0)
        let bonus :=
          (if sharpe > 3 / 2 then 10 * (sharpe - 3 / 2) else 0)
          + (if win > 60 then (win - 60) / 2 else 0)
        net_profit - penalty + bonus

/-- The spec's own reward-gate example: exactly 30 trades of +40 each
(12% total profit on 10000), spread over 7 distinct days, no drawdown. -/
def gateLog30 : List Trade :=
  (List.range 30).map (fun i => { pnl := 40, day := ((i % 7 : ℕ) : ℤ), start_equity := some 10000 })

/-- A log that satisfies every hard constraint: 40 trades of +30 each
(12% total profit on 10000) over 5 distinct days, monotone equity (no
drawdown). -/
def passLog40 : List Trade :=
  (List.range 40).map (fun i => { pnl := 30, day := ((i / 8 : ℕ) : ℤ), start_equity := some 10000 })

end Reward

/-- C1: the claim says `evaluate` returns the sentinel `-1000` on every
non-empty log failing a hard constraint. On the code as written it cannot:
`trading_days` raises `AttributeError` (a `DatetimeIndex` has no `.dt`
accessor) on every non-empty log, before the gate is reached. Evaluated here
at the spec's own gate example (30 trades, 12% profit, 7 days, no
drawdown), for every value of the float square-root function. -/
theorem C1_evaluate_gate_example_raises (sqrtF : ℚ → ℚ) :
    Reward.evaluate sqrtF (some Reward.gateLog30) =
      .error "AttributeError: DatetimeIndex object has no attribute dt" := rfl

/-- C2: the claim describes the penalty/bonus scoring of a gate-passing log.
The scored stage of `evaluate` as written is unreachable for any non-empty
log: `n_days = trading_days(trades)` raises `AttributeError` first.
Evaluated at a constraint-satisfying log (40 trades, 12% profit, 5 days,
no drawdown), for every value of the float square-root function. -/
theorem C2_evaluate_scored_stage_unreachable (sqrtF : ℚ → ℚ) :
    Reward.evaluate sqrtF (some Reward.passLog40) =
      .error "AttributeError: DatetimeIndex object has no attribute dt" := rfl

/-- C7: `evaluate(None)` and `evaluate([])` both return exactly `0.0`,
through the two early returns of lines 77–80 — before any constraint or
score is computed, and in particular without reaching the `trading_days`
call that fails on every non-empty log. -/
theorem C7_evaluate_empty_and_none (sqrtF : ℚ → ℚ) :
    Reward.evaluate sqrtF none = .ok 0 ∧ Reward.evaluate sqrtF (some []) = .ok 0 :=
  ⟨rfl, rfl⟩

/-- With the one-token `trading_days` fix in place, the gate example of the
spec does evaluate to the sentinel: 30 trades trip the trade-count floor
(the behavior `tests/test_reward.py::test_evaluate_too_few_trades`
asserts of the unfixed code). -/
theorem evaluate_intended_gate_example (sqrtF : ℚ → ℚ) :
    Reward.evaluate_intended sqrtF (some Reward.gateLog30) = -1000 := rfl

namespace Strategy

/-- One row of the price table handed to `generate_signals`: `datetime` is
modelled as an integer timestamp (minutes); OHLC prices and volume as
rationals / integers. -/
structure Bar where
  datetime : ℤ
  open_ : ℚ
  high : ℚ
  low : ℚ
  close : ℚ
  volume : ℤ
deriving DecidableEq

/-- The close column. -/
def closes (bars : List Bar) : List ℚ := bars.map (·.close)

/-- `series.ewm(span=span, adjust=False).mean()`: `e_0 = x_0` and
`e_i = α·x_i + (1-α)·e_{i-1}` with `α = 2/(span+1)`. Never `NaN` on a
`NaN`-free input. -/
def ema (s : List ℚ) (span : ℕ) : List ℚ :=
  match s with
  | [] => []
  | x :: xs =>
    xs.scanl (fun prev v => (2 / (span + 1)) * v + (1 - 2 / (span + 1)) * prev) x

/-- `series.diff()`: `NaN` at index 0, consecutive differences after. -/
def diffs : List ℚ → List (Option ℚ)
  | [] => []
  | s@(_ :: _) => none :: List.zipWith (fun a b => some (b - a)) s (s.drop 1)

/-- `delta.where(delta > 0, 0)`: keep strictly positive deltas, everything
else — the leading `NaN` included, since `NaN > 0` is false — becomes `0`. -/
def gains (ds : List (Option ℚ)) : List ℚ :=
  ds.map (fun d => match d with | some v => if 0 < v then v else 0 | none => 0)

/-- `-delta.where(delta < 0, 0)`: magnitudes of the strictly negative deltas,
everything else `0`. -/
def losses (ds : List (Option ℚ)) : List ℚ :=
  ds.map (fun d => match d with | some v => if v < 0 then -v else 0 | none => 0)

/-- `series.rolling(period).mean()` over a series with no missing values:
entry `i` is the mean of the window `s[i-period+1 .. i]`, defined once the
window is full (`i + 1 ≥ period`), `NaN` before. -/
def rolling_mean (period : ℕ) (s : List ℚ) : List (Option ℚ) :=
  (List.range s.length).map (fun i =>
    if i + 1 < period then none
    else some (((s.take (i + 1)).drop (i + 1 - period)).sum / period))

/-- `rsi` (strategy.py lines 28–34): rolling means of gains and losses,
`rs = gain / (loss + 1e-9)`, scaled to `100 - 100/(1+rs)`. The output at
index `i` is defined exactly where the two rolling means are. -/
def rsi (s : List ℚ) (period : ℕ) : List (Option ℚ) :=
  (List.range s.length).map (fun i =>
    match (rolling_mean period (gains (diffs s))).getD i none,
        (rolling_mean period (losses (diffs s))).getD i none with
    | some g, some l => some (100 - 100 / (1 + g / (l + 1 / 10 ^ 9)))
    | _, _ => none)

/-- Bullish engulfing of `prev` by `cur` (lines 41–46): prior red candle,
current green candle, current body strictly containing the prior body. -/
def bullish_engulf (prev cur : Bar) : Bool :=
  decide (prev.close < prev.open_) && decide (cur.open_ < cur.close)
  && decide (cur.open_ < prev.close) && decide (prev.open_ < cur.close)

/-- Bearish engulfing (lines 47–52), the mirror conditions. -/
def bearish_engulf (prev cur : Bar) : Bool :=
  decide (prev.open_ < prev.close) && decide (cur.close < cur.open_)
  && decide (prev.close < cur.open_) && decide (cur.close < prev.open_)

/-- `find_engulfing` (lines 37–53): false at row 0 (every comparison against
the shifted `NaN` row is false), bullish-or-bearish after. -/
def find_engulfing : List Bar → List Bool
  | [] => []
  | b :: bs =>
    false :: List.zipWith (fun p c => bullish_engulf p c || bearish_engulf p c) (b :: bs) bs

/-- The true-range column of `atr` (lines 62–69). At row 0 the two terms
involving the shifted `NaN` previous close drop out of `max(axis=1)`
(pandas skips `NaN` there), leaving `|high - low|`. -/
def true_range : List Bar → List ℚ
  | [] => []
  | b :: bs =>
    |b.high - b.low| ::
      List.zipWith
        (fun p c => max |c.high - c.low| (max |c.high - p.close| |c.low - p.close|))
        (b :: bs) bs

/-- `atr` (lines 56–70): rolling mean of the true range. -/
def atr (bars : List Bar) (period : ℕ) : List (Option ℚ) :=
  rolling_mean period (true_range bars)

/-- Python float `round` to 2 decimals is round-half-to-even; modelled
exactly on the rational value (the binary-representation wobble of a float
tie is below the granularity any claim here depends on). -/
def round_half_even (q : ℚ) : ℤ :=
  if q - ⌊q⌋ < 1 / 2 then ⌊q⌋
  else if 1 / 2 < q - ⌊q⌋ then ⌊q⌋ + 1
  else if ⌊q⌋ % 2 = 0 then ⌊q⌋ else ⌊q⌋ + 1

/-- `round(lots, 2)`. -/
def round2 (q : ℚ) : ℚ := (round_half_even (q * 100) : ℚ) / 100

/-- `position_size` (lines 72–86). `pip_value` defaults to 10 in the source;
call sites below pass 10 explicitly. -/
def position_size (equity risk_perc atr_val pip_value : ℚ) : ℚ :=
  let risk := equity * risk_perc / 100
  let stop_pips := atr_val * 10000
  if stop_pips = 0 then 0
  else max (1 / 100) (round2 (risk / (stop_pips * pip_value)))

/-- `np.min` of a list (call sites pass non-empty curves, seeded with the
current equity). -/
def list_min : List ℚ → ℚ
  | [] => 0
  | x :: xs => xs.foldl min x

/-- `daily_drawdown_guard` (lines 88–98): true iff
`(start_equity - min(equity_curve)) / start_equity ≤ max_dd`. -/
def daily_drawdown_guard (equity_curve : List ℚ) (start_equity : ℚ) (max_dd : ℚ) : Bool :=
  decide ((start_equity - list_min equity_curve) / start_equity ≤ max_dd)

/-- `rf_filter` (lines 100–138). The sklearn `RandomForestClassifier` is an
external dependency; the trained model's prediction function is passed in
abstractly as `predict` (training features, training labels, test features ↦
predicted classes, one per test row as sklearn returns). `sklearn_available`
models whether the `import` at line 113 succeeds. The three guard branches —
the only ones the claims exercise — never consult `predict`. -/
def rf_filter (predict : List (List ℚ) → List ℤ → List (List ℚ) → List ℤ)
    (sklearn_available : Bool) (signals : List ℤ) (features : List (List ℚ))
    (train_size : ℕ) : List ℤ :=
  if !sklearn_available then signals
  else if signals.length ≤ train_size then signals
  else
    let y_train := signals.take train_size
    let X_train := features.take train_size
    let X_test := features.drop train_size
    if y_train.dedup.length < 2 then
      y_train ++ List.replicate (signals.length - train_size) 0
    else
      y_train ++ predict X_train y_train X_test

/-- `h4_bias_stub` (lines 141–143): constant true. -/
def h4_bias_stub (bars : List Bar) : List Bool := bars.map (fun _ => true)

/-- `spread_filter_stub` (lines 146–148): constant true. -/
def spread_filter_stub (bars : List Bar) : List Bool := bars.map (fun _ => true)

/-- `risk_guard_stub` (lines 151–153): identity. -/
def risk_guard_stub (signals : List ℤ) : List ℤ := signals

/-- The caller-supplied parameters of `generate_signals` (lines 156–170). -/
structure Params where
  ema_fast : ℕ
  ema_slow : ℕ
  rsi_period : ℕ
  rsi_hi : ℚ
  rsi_lo : ℚ
  atr_period : ℕ
  atr_sl_mult : ℚ
  atr_tp_mult : ℚ
  equity : ℚ
  risk_per_trade : ℚ
  max_trades : ℕ
  start_equity : ℚ
  max_dd : ℚ
deriving DecidableEq

/-- `long_entry` at row `i` (lines 210–216): fast EMA above slow EMA, RSI
defined and below `rsi_hi` (a comparison against `NaN` is false), engulfing,
and the two constant-true hooks. -/
def long_entry (bars : List Bar) (p : Params) (i : ℕ) : Bool :=
  decide ((ema (closes bars) p.ema_slow).getD i 0 < (ema (closes bars) p.ema_fast).getD i 0)
  && (match (rsi (closes bars) p.rsi_period).getD i none with
      | some r => decide (r < p.rsi_hi)
      | none => false)
  && (find_engulfing bars).getD i false
  && (h4_bias_stub bars).getD i false
  && (spread_filter_stub bars).getD i false

/-- `short_entry` at row `i` (lines 217–223). -/
def short_entry (bars : List Bar) (p : Params) (i : ℕ) : Bool :=
  decide ((ema (closes bars) p.ema_fast).getD i 0 < (ema (closes bars) p.ema_slow).getD i 0)
  && (match (rsi (closes bars) p.rsi_period).getD i none with
      | some r => decide (p.rsi_lo < r)
      | none => false)
  && (find_engulfing bars).getD i false
  && (h4_bias_stub bars).getD i false
  && (spread_filter_stub bars).getD i false

/-- The composed raw signal at row `i` (lines 224–226): `signals` starts at
`0`, the long mask writes `1`, then the short mask overwrites with `-1`. -/
def raw_signal (bars : List Bar) (p : Params) (i : ℕ) : ℤ :=
  if short_entry bars p i then -1 else if long_entry bars p i then 1 else 0

/-- The whole raw signal array. -/
def raw_signals (bars : List Bar) (p : Params) : List ℤ :=
  (List.range bars.length).map (raw_signal bars p)

/-- The feature matrix (line 230):
`df[["ema_fast", "ema_slow", "rsi", "engulfing"]].fillna(0)`. -/
def features_of (bars : List Bar) (p : Params) : List (List ℚ) :=
  (List.range bars.length).map (fun i =>
    [(ema (closes bars) p.ema_fast).getD i 0,
     (ema (closes bars) p.ema_slow).getD i 0,
     ((rsi (closes bars) p.rsi_period).getD i none).getD 0,
     if (find_engulfing bars).getD i false then 1 else 0])

/-- `df.sort_values("datetime").reset_index(drop=True)` (line 198). The
spec's table invariant makes timestamps unique, so any comparison sort is
the same reordering; insertion sort keeps the embedding structural. -/
def sort_by_datetime (bars : List Bar) : List Bar :=
  List.insertionSort (fun a b => a.datetime ≤ b.datetime) bars

/-- The synthetic CI table fabricated by `generate_signals` itself when
`prices is None` (lines 178–196): 100 bars at 15-minute spacing from
2024-01-01 UTC. The OHLCV values are seeded Mersenne-Twister float draws
(`np.random.seed(1)`), not reproduced here — no claim below depends on
them, only on the branch existing and on the table's shape — so they are
left at 0; the datetimes, which the claims do touch, are exact (minutes). -/
def ci_synthetic_bars : List Bar :=
  (List.range 100).map (fun i =>
    { datetime := 15 * (i : ℤ), open_ := 0, high := 0, low := 0, close := 0, volume := 0 })

/-- Lines 178–196 of `generate_signals`: the input table, or the fabricated
synthetic table when none is given. -/
def resolve_prices : Option (List Bar) → List Bar
  | none => ci_synthetic_bars
  | some ps => ps

/-- One emitted trade proposal (lines 254–262). -/
structure Proposal where
  time : ℤ
  signal : ℤ
  sl : ℚ
  tp : ℚ
  size : ℚ
deriving DecidableEq

/-- The record appended for a qualifying row (lines 247–262): stop and
target from ATR multiples around the close, size from `position_size`
with its default `pip_value = 10`. -/
def mk_proposal (p : Params) (sig : ℤ) (bar : Bar) (av : ℚ) : Proposal :=
  let dir : ℚ := if 0 < sig then 1 else -1
  { time := bar.datetime
    signal := sig
    sl := bar.close - dir * p.atr_sl_mult * av
    tp := bar.close + dir * p.atr_tp_mult * av
    size := position_size p.equity p.risk_per_trade av 10 }

/-- The entry loop (lines 237–266) over rows `(signal, bar, atr)`: skip a
row with signal 0 or once `max_trades` proposals are out; skip a row with
`NaN` or zero ATR; otherwise consult the drawdown guard — on breach
`break` (the remaining rows are never looked at), else append and extend
the stubbed equity curve with the unchanged equity. -/
def entry_loop (p : Params) : List (ℤ × Bar × Option ℚ) → ℕ → List ℚ → List Proposal
  | [], _, _ => []
  | r :: rest, trade_count, equity_curve =>
    if r.1 = 0 ∨ p.max_trades ≤ trade_count then
      entry_loop p rest trade_count equity_curve
    else
      match r.2.2 with
      | none => entry_loop p rest trade_count equity_curve
      | some av =>
        if av = 0 then entry_loop p rest trade_count equity_curve
        else if !daily_drawdown_guard equity_curve p.start_equity p.max_dd then []
        else
          mk_proposal p r.1 r.2.1 av ::
            entry_loop p rest (trade_count + 1) (equity_curve ++ [p.equity])

/-- `generate_signals` (lines 156–266) end to end: resolve the table, sort
by datetime, compose the raw signals, run them through `rf_filter` (with
the source's call-site `train_size = 50`) and the identity risk guard, and
drive the entry loop from `trade_count = 0` and the equity curve seeded
`[equity]`. -/
def generate_signals (predict : List (List ℚ) → List ℤ → List (List ℚ) → List ℤ)
    (sklearn_available : Bool) (prices : Option (List Bar)) (p : Params) : List Proposal :=
  let df := sort_by_datetime (resolve_prices prices)
  let sigs := risk_guard_stub
    (rf_filter predict sklearn_available (raw_signals df p) (features_of df p) 50)
  entry_loop p (sigs.zip (df.zip (atr df p.atr_period))) 0 [p.equity]

end Strategy

namespace Strategy

/-- A three-bar table for concrete runs: bar 0 red, bar 1 green, bar 2 a
bearish engulfing of bar 1 (open 1.45 above close 1.4, close 1.1 below
open 1.35), closes 1, 1.4, 1.1. -/
def demoBar0 : Bar :=
  { datetime := 0, open_ := 21 / 20, high := 11 / 10, low := 19 / 20, close := 1, volume := 100 }

/-- Second demo bar. -/
def demoBar1 : Bar :=
  { datetime := 15, open_ := 27 / 20, high := 29 / 20, low := 13 / 10, close := 7 / 5, volume := 100 }

/-- Third demo bar. -/
def demoBar2 : Bar :=
  { datetime := 30, open_ := 29 / 20, high := 3 / 2, low := 21 / 20, close := 11 / 10, volume := 100 }

/-- The demo table. -/
def demoBars : List Bar := [demoBar0, demoBar1, demoBar2]

/-- Parameters for the demo table: fast EMA span 1 (the close itself), slow
span 3, RSI period 2, and the source's default ATR period 14 — whose
warm-up window covers all three bars. -/
def demoParams : Params :=
  { ema_fast := 1, ema_slow := 3, rsi_period := 2, rsi_hi := 70, rsi_lo := 30,
    atr_period := 14, atr_sl_mult := 2, atr_tp_mult := 3, equity := 10000,
    risk_per_trade := 1 / 2, max_trades := 5, start_equity := 10000, max_dd := 3 / 100 }

/-- The demo parameters with ATR period 1, so every ATR entry is defined
(the bar's own true range). -/
def demoParams1 : Params := { demoParams with atr_period := 1 }

/-- A trained-model stand-in for concrete runs; never consulted, since the
demo table is shorter than the call-site `train_size = 50`. -/
def predict0 : List (List ℚ) → List ℤ → List (List ℚ) → List ℤ := fun _ _ _ => []

end Strategy

/-- C4: `position_size` returns exactly `0.0` when the stop distance
`atr_val * 10000` is zero — equivalently, when `atr_val` is zero — and
otherwise `max(0.01, round(risk / (stop_pips * pip_value), 2))`, hence
never a value below `0.01`; the division is guarded by the zero check. -/
theorem C4_position_size_floor (equity risk_perc atr_val pip_value : ℚ) :
    (atr_val = 0 → Strategy.position_size equity risk_perc atr_val pip_value = 0)
    ∧ (atr_val ≠ 0 →
        1 / 100 ≤ Strategy.position_size equity risk_perc atr_val pip_value) := by
  constructor
  · intro h
    simp [Strategy.position_size, h]
  · intro h
    have hs : atr_val * 10000 ≠ 0 := by
      simp [mul_eq_zero, h]
    simp only [Strategy.position_size, if_neg hs]
    exact le_max_left _ _

/-- C4 witness: with equity 10000, risk 0.5% and ATR 0.0015 (15 pips) the
size is floored at or above 0.01, and ATR 0 yields exactly 0. -/
theorem C4_position_size_floor_witness :
    Strategy.position_size 10000 (1 / 2) 0 10 = 0
    ∧ 1 / 100 ≤ Strategy.position_size 10000 (1 / 2) (15 / 10000) 10 :=
  ⟨(C4_position_size_floor 10000 (1 / 2) 0 10).1 rfl,
   (C4_position_size_floor 10000 (1 / 2) (15 / 10000) 10).2 (by norm_num)⟩

/-- C5: `rf_filter` is the identity whenever the input length does not
exceed `train_size`, and whenever the classifier dependency is unavailable;
when it does run but the training slice holds fewer than two distinct
classes, the output is the training labels followed by zeros — and no
branch can raise. -/
theorem C5_rf_filter_fallbacks (predict : List (List ℚ) → List ℤ → List (List ℚ) → List ℤ)
    (sk : Bool) (signals : List ℤ) (features : List (List ℚ)) (train_size : ℕ) :
    (signals.length ≤ train_size →
      Strategy.rf_filter predict sk signals features train_size = signals)
    ∧ Strategy.rf_filter predict false signals features train_size = signals
    ∧ (train_size < signals.length →
        (signals.take train_size).dedup.length < 2 →
        Strategy.rf_filter predict true signals features train_size =
          signals.take train_size ++ List.replicate (signals.length - train_size) 0) := by
  refine ⟨fun h => ?_, ?_, fun h1 h2 => ?_⟩
  · cases sk <;> simp [Strategy.rf_filter, h]
  · simp [Strategy.rf_filter]
  · simp [Strategy.rf_filter, Nat.not_le.mpr h1, h2]

/-- C5 witness: a single-class three-signal input with `train_size = 2`
keeps its training labels and zeroes the held-out tail; a two-signal input
with `train_size = 5` passes through unchanged. -/
theorem C5_rf_filter_fallbacks_witness :
    Strategy.rf_filter Strategy.predict0 true [1, 1, 1] [] 2 = [1, 1, 0]
    ∧ Strategy.rf_filter Strategy.predict0 true [1, -1] [] 5 = [1, -1] :=
  ⟨(C5_rf_filter_fallbacks Strategy.predict0 true [1, 1, 1] [] 2).2.2
      (by decide) (by decide),
   (C5_rf_filter_fallbacks Strategy.predict0 true [1, -1] [] 5).1 (by decide)⟩

/-- C8 counterexample: the claim says `generate_signals` has no
synthetic-data fallback of its own. But its `prices is None` branch
fabricates a non-empty, 100-bar table internally (strategy.py lines
178–196) — the substitution is behavior of `generate_signals` itself. -/
theorem C8_core_has_own_fallback :
    Strategy.resolve_prices none ≠ [] ∧ (Strategy.resolve_prices none).length = 100 := by
  have hlen : (Strategy.resolve_prices none).length = 100 := rfl
  refine ⟨fun h => ?_, hlen⟩
  rw [h] at hlen
  simp at hlen

/-- C8 (amended): when `generate_signals` is given no price table it
substitutes its own deterministic 100-bar synthetic table and runs the
full pipeline on it — the upstream loader's synthetic fallback
(`data_prep._generate_synthetic`) exists in addition to, not instead of,
this one. -/
theorem C8_generate_signals_self_fallback
    (predict : List (List ℚ) → List ℤ → List (List ℚ) → List ℤ)
    (sk : Bool) (p : Strategy.Params) :
    Strategy.generate_signals predict sk none p =
      Strategy.generate_signals predict sk (some Strategy.ci_synthetic_bars) p
    ∧ Strategy.ci_synthetic_bars.length = 100 :=
  ⟨rfl, rfl⟩

/-- Helper for C3: the entry loop never emits more than the trades left
under the cap. -/
theorem entry_loop_length_le (p : Strategy.Params)
    (rows : List (ℤ × Strategy.Bar × Option ℚ)) :
    ∀ trade_count curve,
      (Strategy.entry_loop p rows trade_count curve).length ≤ p.max_trades - trade_count := by
  induction rows with
  | nil => intro trade_count curve; simp [Strategy.entry_loop]
  | cons r rest ih =>
    intro trade_count curve
    rw [Strategy.entry_loop]
    split
    · exact ih trade_count curve
    next hskip =>
      split
      · exact ih trade_count curve
      next av =>
        split
        · exact ih trade_count curve
        · split
          · simp
          · have hrec := ih (trade_count + 1) (curve ++ [p.equity])
            have hcount : trade_count < p.max_trades := by
              rcases Nat.lt_or_ge trade_count p.max_trades with h | h
              · exact h
              · exact absurd (Or.inr h) hskip
            simp only [List.length_cons]
            omega

/-- Helper for C3: once the drawdown guard reports a breach for the current
curve, the loop emits nothing at all — every later bar is either skipped
(leaving the curve untouched) or hits the `break`. -/
theorem entry_loop_breach (p : Strategy.Params)
    (rows : List (ℤ × Strategy.Bar × Option ℚ)) (curve : List ℚ)
    (h : Strategy.daily_drawdown_guard curve p.start_equity p.max_dd = false) :
    ∀ trade_count, Strategy.entry_loop p rows trade_count curve = [] := by
  induction rows with
  | nil => intro trade_count; rfl
  | cons r rest ih =>
    intro trade_count
    rw [Strategy.entry_loop]
    split
    · exact ih trade_count
    · split
      · exact ih trade_count
      next av =>
        split
        · exact ih trade_count
        · simp [h]

/-- C3: the entry loop of `generate_signals` emits at most `max_trades`
proposals (whatever the input length), and once `daily_drawdown_guard`
reports a breach it emits no proposal for any later bar — the loop returns
at the first qualifying bar instead of skipping it — so `generate_signals`
output length never exceeds `max_trades`. -/
theorem C3_entry_loop_bounds (p : Strategy.Params) :
    (∀ rows trade_count curve,
      (Strategy.entry_loop p rows trade_count curve).length ≤ p.max_trades)
    ∧ (∀ rows trade_count curve,
        Strategy.daily_drawdown_guard curve p.start_equity p.max_dd = false →
        Strategy.entry_loop p rows trade_count curve = [])
    ∧ (∀ predict sk prices,
        (Strategy.generate_signals predict sk prices p).length ≤ p.max_trades) := by
  refine ⟨fun rows trade_count curve => ?_, fun rows trade_count curve h => ?_, ?_⟩
  · exact le_trans (entry_loop_length_le p rows trade_count curve) (Nat.sub_le _ _)
  · exact entry_loop_breach p rows curve h trade_count
  · intro predict sk prices
    exact le_trans (entry_loop_length_le p _ 0 _) (by omega)

/-- C3 witness: with a curve already 10% under water the guard reports a
breach and the loop drops a qualifying row entirely, and on the demo run
the output stays within `max_trades = 5`. -/
theorem C3_entry_loop_bounds_witness :
    Strategy.entry_loop Strategy.demoParams
        [(-1, Strategy.demoBar2, some 1)] 0 [9000] = []
    ∧ (Strategy.generate_signals Strategy.predict0 true
        (some Strategy.demoBars) Strategy.demoParams).length ≤ 5 :=
  ⟨(C3_entry_loop_bounds Strategy.demoParams).2.1 _ 0 [9000]
      (by norm_num [Strategy.daily_drawdown_guard, Strategy.list_min, Strategy.demoParams]),
   (C3_entry_loop_bounds Strategy.demoParams).2.2 Strategy.predict0 true
      (some Strategy.demoBars)⟩

/-- Helper: indexing a table built as `map` over `range`. -/
theorem getD_range_map {α : Type} (n : ℕ) (f : ℕ → α) (i : ℕ) (d : α) :
    ((List.range n).map f).getD i d = if i < n then f i else d := by
  rcases Nat.lt_or_ge i n with h | h
  · rw [if_pos h, List.getD_eq_getElem?_getD]
    simp [List.getElem?_range, h]
  · rw [if_neg (Nat.not_lt.mpr h), List.getD_eq_getElem?_getD]
    have hlen : ((List.range n).map f).length ≤ i := by simpa using h
    simp [List.getElem?_eq_none hlen]

/-- Helper: the gain column is pointwise non-negative. -/
theorem gains_nonneg (ds : List (Option ℚ)) : ∀ x ∈ Strategy.gains ds, 0 ≤ x := by
  intro x hx
  simp only [Strategy.gains, List.mem_map] at hx
  obtain ⟨d, _, rfl⟩ := hx
  cases d with
  | none => exact le_refl 0
  | some v =>
    dsimp only
    split
    next h => exact le_of_lt h
    next h => exact le_refl 0

/-- Helper: the loss column is pointwise non-negative. -/
theorem losses_nonneg (ds : List (Option ℚ)) : ∀ x ∈ Strategy.losses ds, 0 ≤ x := by
  intro x hx
  simp only [Strategy.losses, List.mem_map] at hx
  obtain ⟨d, _, rfl⟩ := hx
  cases d with
  | none => exact le_refl 0
  | some v =>
    dsimp only
    split
    next h => linarith
    next h => exact le_refl 0

/-- Helper: a defined rolling mean of a pointwise non-negative series is
non-negative. -/
theorem rolling_mean_getD_nonneg (period : ℕ) (s : List ℚ) (hs : ∀ x ∈ s, 0 ≤ x)
    (i : ℕ) (v : ℚ)
    (h : (Strategy.rolling_mean period s).getD i none = some v) : 0 ≤ v := by
  rw [Strategy.rolling_mean, getD_range_map] at h
  split at h
  · split at h
    · cases h
    · injection h with h
      subst h
      apply div_nonneg
      · apply List.sum_nonneg
        intro x hx
        exact hs x (List.mem_of_mem_take (List.mem_of_mem_drop hx))
      · exact Nat.cast_nonneg period
  · cases h

/-- Helper: a defined RSI entry lies in `[0, 100]`. -/
theorem rsi_getD_bounds (s : List ℚ) (period : ℕ) (i : ℕ) (v : ℚ)
    (h : (Strategy.rsi s period).getD i none = some v) : 0 ≤ v ∧ v ≤ 100 := by
  rw [Strategy.rsi, getD_range_map] at h
  split at h
  · rcases hg : (Strategy.rolling_mean period (Strategy.gains (Strategy.diffs s))).getD i none
      with _ | g
      <;> rcases hl :
        (Strategy.rolling_mean period (Strategy.losses (Strategy.diffs s))).getD i none
        with _ | l
      <;> rw [hg, hl] at h
    · simp at h
    · simp at h
    · simp at h
    · simp only [] at h
      injection h with h
      subst h
      have h0g : 0 ≤ g := rolling_mean_getD_nonneg _ _ (gains_nonneg _) _ _ hg
      have h0l : 0 ≤ l := rolling_mean_getD_nonneg _ _ (losses_nonneg _) _ _ hl
      have hld : (0 : ℚ) < l + 1 / 10 ^ 9 := by positivity
      have hrs : (0 : ℚ) ≤ g / (l + 1 / 10 ^ 9) := div_nonneg h0g hld.le
      constructor
      · have hb : 100 / (1 + g / (l + 1 / 10 ^ 9)) ≤ 100 :=
          div_le_self (by norm_num) (by linarith)
        linarith
      · have hb : (0 : ℚ) ≤ 100 / (1 + g / (l + 1 / 10 ^ 9)) :=
          div_nonneg (by norm_num) (by linarith)
        linarith
  · cases h

/-- Helper: inside the true warm-up window (`i + 1 < period`) the RSI is
undefined. -/
theorem rsi_getD_warmup (s : List ℚ) (period i : ℕ) (h : i + 1 < period) :
    (Strategy.rsi s period).getD i none = none := by
  rw [Strategy.rsi, getD_range_map]
  split
  · have hg : (Strategy.rolling_mean period
        (Strategy.gains (Strategy.diffs s))).getD i none = none := by
      rw [Strategy.rolling_mean, getD_range_map]
      simp [h]
    rw [hg]
  · rfl

/-- C9 (amended): every defined `rsi` output lies in `[0, 100]`, and the
epsilon added to the denominator keeps the ratio total; the undefined
warm-up prefix is the first `period - 1` outputs — not `period`, because
the leading `NaN` of `diff` is zeroed by the `where` clauses before the
rolling mean, so the window fills one bar earlier than the spec states. -/
theorem C9_rsi_bounds_and_warmup (s : List ℚ) (period : ℕ) :
    (∀ i v, (Strategy.rsi s period).getD i none = some v → 0 ≤ v ∧ v ≤ 100)
    ∧ ∀ i, i + 1 < period → (Strategy.rsi s period).getD i none = none :=
  ⟨fun i v h => rsi_getD_bounds s period i v h, fun i h => rsi_getD_warmup s period i h⟩

/-- C9 witness: at period 2 the output at index 0 (inside the true warm-up
window) is undefined. -/
theorem C9_rsi_bounds_and_warmup_witness :
    (Strategy.rsi [1, 2, 3] 2).getD 0 none = none :=
  (C9_rsi_bounds_and_warmup [1, 2, 3] 2).2 0 (by norm_num)

/-- C9 counterexample: the claim says the first `period` outputs are NaN;
at period 2 over the series `[1, 2, 3]` the output at index 1 is already
defined. -/
theorem C9_rsi_second_output_defined :
    ((Strategy.rsi [1, 2, 3] 2).getD 1 none).isSome = true := rfl

/-- The close column of the demo table. -/
theorem demo_closes : Strategy.closes Strategy.demoBars = [1, 7 / 5, 11 / 10] := rfl

/-- Fast EMA (span 1) over the demo closes: the closes themselves. -/
theorem demo_ema_fast :
    Strategy.ema (Strategy.closes Strategy.demoBars) 1 = [1, 7 / 5, 11 / 10] := by
  rw [demo_closes]
  norm_num [Strategy.ema, List.scanl]

/-- Slow EMA (span 3) over the demo closes. -/
theorem demo_ema_slow :
    Strategy.ema (Strategy.closes Strategy.demoBars) 3 = [1, 6 / 5, 23 / 20] := by
  rw [demo_closes]
  norm_num [Strategy.ema, List.scanl]

/-- Diffs of the demo closes. -/
theorem demo_diffs :
    Strategy.diffs (Strategy.closes Strategy.demoBars) = [none, some (2 / 5), some (-3 / 10)] := by
  rw [demo_closes]
  norm_num [Strategy.diffs]

/-- Gain column of the demo closes. -/
theorem demo_gains :
    Strategy.gains (Strategy.diffs (Strategy.closes Strategy.demoBars)) = [0, 2 / 5, 0] := by
  rw [demo_diffs]
  norm_num [Strategy.gains]

/-- Loss column of the demo closes. -/
theorem demo_losses :
    Strategy.losses (Strategy.diffs (Strategy.closes Strategy.demoBars)) = [0, 0, 3 / 10] := by
  rw [demo_diffs]
  norm_num [Strategy.losses]

/-- Rolling mean (period 2) of the demo gains. -/
theorem demo_roll_gains :
    Strategy.rolling_mean 2 (Strategy.gains (Strategy.diffs (Strategy.closes Strategy.demoBars)))
      = [none, some (1 / 5), some (1 / 5)] := by
  rw [Strategy.rolling_mean, demo_gains]
  norm_num [List.range_succ]

/-- Rolling mean (period 2) of the demo losses. -/
theorem demo_roll_losses :
    Strategy.rolling_mean 2 (Strategy.losses (Strategy.diffs (Strategy.closes Strategy.demoBars)))
      = [none, some 0, some (3 / 20)] := by
  rw [Strategy.rolling_mean, demo_losses]
  norm_num [List.range_succ]

/-- RSI (period 2) over the demo closes: undefined only at index 0, about
99.99999950 at index 1 (all gain) and about 57.14 at index 2. -/
theorem demo_rsi :
    Strategy.rsi (Strategy.closes Strategy.demoBars) 2 =
      [none, some (20000000000 / 200000001), some (20000000000 / 350000001)] := by
  rw [Strategy.rsi, demo_roll_gains, demo_roll_losses]
  norm_num [demo_closes, List.range_succ, List.getD_cons_zero, List.getD_cons_succ]

/-- Engulfing column of the demo table: bar 2 bearishly engulfs bar 1. -/
theorem demo_engulfing :
    Strategy.find_engulfing Strategy.demoBars = [false, false, true] := by
  norm_num [Strategy.find_engulfing, Strategy.bullish_engulf, Strategy.bearish_engulf,
    Strategy.demoBars, Strategy.demoBar0, Strategy.demoBar1, Strategy.demoBar2]

/-- The bias hook over the demo table: constant true. -/
theorem demo_hooks_h4 : Strategy.h4_bias_stub Strategy.demoBars = [true, true, true] := rfl

/-- The spread hook over the demo table: constant true. -/
theorem demo_hooks_spread : Strategy.spread_filter_stub Strategy.demoBars = [true, true, true] := rfl

/-- Bar 2 of the demo table satisfies the short-entry condition. -/
theorem demo_short_entry_2 :
    Strategy.short_entry Strategy.demoBars Strategy.demoParams 2 = true := by
  rw [Strategy.short_entry]
  norm_num [Strategy.demoParams, demo_ema_fast, demo_ema_slow, demo_rsi, demo_engulfing,
    demo_hooks_h4, demo_hooks_spread]

/-- Helper: the long-entry mask at a row, as a proposition. -/
theorem long_entry_iff (bars : List Strategy.Bar) (p : Strategy.Params) (i : ℕ) :
    Strategy.long_entry bars p i = true ↔
      ((Strategy.ema (Strategy.closes bars) p.ema_slow).getD i 0
          < (Strategy.ema (Strategy.closes bars) p.ema_fast).getD i 0
        ∧ (∃ r, (Strategy.rsi (Strategy.closes bars) p.rsi_period).getD i none = some r
            ∧ r < p.rsi_hi)
        ∧ (Strategy.find_engulfing bars).getD i false = true
        ∧ (Strategy.h4_bias_stub bars).getD i false = true
        ∧ (Strategy.spread_filter_stub bars).getD i false = true) := by
  rw [Strategy.long_entry]
  rcases h : (Strategy.rsi (Strategy.closes bars) p.rsi_period).getD i none with _ | r
  · simp [h]
  · simp [h]
    tauto

/-- Helper: the short-entry mask at a row, as a proposition. -/
theorem short_entry_iff (bars : List Strategy.Bar) (p : Strategy.Params) (i : ℕ) :
    Strategy.short_entry bars p i = true ↔
      ((Strategy.ema (Strategy.closes bars) p.ema_fast).getD i 0
          < (Strategy.ema (Strategy.closes bars) p.ema_slow).getD i 0
        ∧ (∃ r, (Strategy.rsi (Strategy.closes bars) p.rsi_period).getD i none = some r
            ∧ p.rsi_lo < r)
        ∧ (Strategy.find_engulfing bars).getD i false = true
        ∧ (Strategy.h4_bias_stub bars).getD i false = true
        ∧ (Strategy.spread_filter_stub bars).getD i false = true) := by
  rw [Strategy.short_entry]
  rcases h : (Strategy.rsi (Strategy.closes bars) p.rsi_period).getD i none with _ | r
  · simp [h]
  · simp [h]
    tauto

/-- C6 (amended): the composed raw signal is +1 exactly on the long
condition (fast EMA above slow, RSI defined and below `rsi_hi`, an
engulfing pattern, both hooks true), −1 exactly on the short condition
(mirror, RSI above `rsi_lo`), and 0 otherwise; a bar with undefined
(warm-up) RSI always composes to 0. An undefined ATR does not zero the
raw signal — ATR is consulted only later, by the entry loop — so the
claim's "every bar inside any indicator's warm-up window yields 0" holds
for the RSI warm-up but not the ATR warm-up. -/
theorem C6_raw_signal_conditions (bars : List Strategy.Bar) (p : Strategy.Params) (i : ℕ) :
    (Strategy.raw_signal bars p i = 1 ↔
      ((Strategy.ema (Strategy.closes bars) p.ema_slow).getD i 0
          < (Strategy.ema (Strategy.closes bars) p.ema_fast).getD i 0
        ∧ (∃ r, (Strategy.rsi (Strategy.closes bars) p.rsi_period).getD i none = some r
            ∧ r < p.rsi_hi)
        ∧ (Strategy.find_engulfing bars).getD i false = true
        ∧ (Strategy.h4_bias_stub bars).getD i false = true
        ∧ (Strategy.spread_filter_stub bars).getD i false = true))
    ∧ (Strategy.raw_signal bars p i = -1 ↔
      ((Strategy.ema (Strategy.closes bars) p.ema_fast).getD i 0
          < (Strategy.ema (Strategy.closes bars) p.ema_slow).getD i 0
        ∧ (∃ r, (Strategy.rsi (Strategy.closes bars) p.rsi_period).getD i none = some r
            ∧ p.rsi_lo < r)
        ∧ (Strategy.find_engulfing bars).getD i false = true
        ∧ (Strategy.h4_bias_stub bars).getD i false = true
        ∧ (Strategy.spread_filter_stub bars).getD i false = true))
    ∧ (Strategy.raw_signal bars p i = 0 ∨ Strategy.raw_signal bars p i = 1
        ∨ Strategy.raw_signal bars p i = -1)
    ∧ ((Strategy.rsi (Strategy.closes bars) p.rsi_period).getD i none = none →
        Strategy.raw_signal bars p i = 0) := by
  have hl := long_entry_iff bars p i
  have hs := short_entry_iff bars p i
  refine ⟨⟨fun h1 => ?_, fun hprops => ?_⟩, ⟨fun h1 => ?_, fun hprops => ?_⟩, ?_, fun hnone => ?_⟩
  · rw [Strategy.raw_signal] at h1
    cases hse : Strategy.short_entry bars p i with
    | true => rw [hse] at h1; simp at h1
    | false =>
      rw [hse] at h1
      cases hle : Strategy.long_entry bars p i with
      | true => exact hl.mp hle
      | false => rw [hle] at h1; simp at h1
  · have hle := hl.mpr hprops
    have hse : Strategy.short_entry bars p i = false := by
      cases hq : Strategy.short_entry bars p i with
      | false => rfl
      | true => exact absurd hprops.1 (lt_asymm (hs.mp hq).1)
    rw [Strategy.raw_signal, hse, hle]
    simp
  · rw [Strategy.raw_signal] at h1
    cases hse : Strategy.short_entry bars p i with
    | true => exact hs.mp hse
    | false =>
      rw [hse] at h1
      cases hle : Strategy.long_entry bars p i with
      | true => rw [hle] at h1; simp at h1
      | false => rw [hle] at h1; simp at h1
  · rw [Strategy.raw_signal, hs.mpr hprops]
    simp
  · rw [Strategy.raw_signal]
    split
    · right; right; rfl
    · split
      · right; left; rfl
      · left; rfl
  · have hle : Strategy.long_entry bars p i = false := by
      cases hq : Strategy.long_entry bars p i with
      | false => rfl
      | true =>
        obtain ⟨r, hr, _⟩ := (hl.mp hq).2.1
        rw [hnone] at hr
        cases hr
    have hse : Strategy.short_entry bars p i = false := by
      cases hq : Strategy.short_entry bars p i with
      | false => rfl
      | true =>
        obtain ⟨r, hr, _⟩ := (hs.mp hq).2.1
        rw [hnone] at hr
        cases hr
    rw [Strategy.raw_signal, hse, hle]
    simp

/-- C6 counterexample: bar 2 of the demo table lies inside the ATR warm-up
window (period 14 over a three-bar table, ATR undefined there), yet its
composed raw signal is −1, not 0 — a bar inside an indicator's warm-up
window does not in general emit 0; only an undefined RSI forces that. -/
theorem C6_atr_warmup_bar_still_signals :
    Strategy.raw_signal Strategy.demoBars Strategy.demoParams 2 = -1
    ∧ (Strategy.atr Strategy.demoBars Strategy.demoParams.atr_period).getD 2 none = none := by
  refine ⟨?_, rfl⟩
  rw [Strategy.raw_signal, demo_short_entry_2]
  simp

/-- C6 witness: bar 0 of the demo table has an undefined (warm-up) RSI and
composes to signal 0. -/
theorem C6_raw_signal_conditions_witness :
    Strategy.raw_signal Strategy.demoBars Strategy.demoParams 0 = 0 :=
  (C6_raw_signal_conditions Strategy.demoBars Strategy.demoParams 0).2.2.2 rfl

/-- Helper: the emitted record's time is the bar's datetime. -/
theorem mk_proposal_time (p : Strategy.Params) (sig : ℤ) (bar : Strategy.Bar) (av : ℚ) :
    (Strategy.mk_proposal p sig bar av).time = bar.datetime := rfl

/-- Helper: the second components of a zip form a sublist of the right list. -/
theorem map_snd_zip_sublist {α β : Type} (l1 : List α) (l2 : List β) :
    ((l1.zip l2).map Prod.snd).Sublist l2 := by
  induction l1 generalizing l2 with
  | nil => simp
  | cons a l ih =>
    cases l2 with
    | nil => simp
    | cons b l2 => simpa using (ih l2).cons₂ b

/-- Helper: the first components of a zip form a sublist of the left list. -/
theorem map_fst_zip_sublist {α β : Type} (l1 : List α) (l2 : List β) :
    ((l1.zip l2).map Prod.fst).Sublist l1 := by
  induction l1 generalizing l2 with
  | nil => simp
  | cons a l ih =>
    cases l2 with
    | nil => simp
    | cons b l2 => simpa using (ih l2).cons₂ a

/-- Helper: the times of the emitted proposals form a sublist of the rows'
datetimes (the loop walks the rows once, in order). -/
theorem entry_loop_times_sublist (p : Strategy.Params)
    (rows : List (ℤ × Strategy.Bar × Option ℚ)) :
    ∀ trade_count curve,
      ((Strategy.entry_loop p rows trade_count curve).map (fun q => q.time)).Sublist
        (rows.map (fun r => r.2.1.datetime)) := by
  induction rows with
  | nil => intro tc c; simp [Strategy.entry_loop]
  | cons r rest ih =>
    intro tc c
    rw [Strategy.entry_loop]
    split
    · exact (ih tc c).trans (List.sublist_cons_self _ _)
    · split
      · exact (ih tc c).trans (List.sublist_cons_self _ _)
      next av =>
        split
        · exact (ih tc c).trans (List.sublist_cons_self _ _)
        · split
          · simp
          · simpa [mk_proposal_time] using
              (ih (tc + 1) (c ++ [p.equity])).cons₂ r.2.1.datetime

/-- Helper: every emitted proposal is built by `mk_proposal` from a row of
the input, using that row's signal, bar and (non-zero, defined) ATR. -/
theorem entry_loop_mem (p : Strategy.Params) (rows : List (ℤ × Strategy.Bar × Option ℚ)) :
    ∀ trade_count curve prop, prop ∈ Strategy.entry_loop p rows trade_count curve →
      ∃ r ∈ rows, ∃ av, r.2.2 = some av ∧ av ≠ 0
        ∧ prop = Strategy.mk_proposal p r.1 r.2.1 av := by
  induction rows with
  | nil => intro tc c prop h; simp [Strategy.entry_loop] at h
  | cons r rest ih =>
    intro tc c prop h
    rw [Strategy.entry_loop] at h
    split at h
    · obtain ⟨r', hr', rest'⟩ := ih tc c prop h
      exact ⟨r', List.mem_cons_of_mem _ hr', rest'⟩
    · split at h
      · obtain ⟨r', hr', rest'⟩ := ih tc c prop h
        exact ⟨r', List.mem_cons_of_mem _ hr', rest'⟩
      next av heq =>
        split at h
        next hav0 =>
          obtain ⟨r', hr', rest'⟩ := ih tc c prop h
          exact ⟨r', List.mem_cons_of_mem _ hr', rest'⟩
        next hav0 =>
          split at h
          · simp at h
          · rcases List.mem_cons.mp h with h1 | h2
            · exact ⟨r, List.mem_cons_self _ _, av, heq, hav0, h1⟩
            · obtain ⟨r', hr', rest'⟩ := ih _ _ prop h2
              exact ⟨r', List.mem_cons_of_mem _ hr', rest'⟩

/-- Helper: the sorted table is pairwise non-decreasing in datetime. -/
theorem sort_by_datetime_pairwise (bars : List Strategy.Bar) :
    List.Pairwise (fun a b : Strategy.Bar => a.datetime ≤ b.datetime)
      (Strategy.sort_by_datetime bars) := by
  haveI h1 : IsTotal Strategy.Bar (fun a b => a.datetime ≤ b.datetime) :=
    ⟨fun a b => le_total a.datetime b.datetime⟩
  haveI h2 : IsTrans Strategy.Bar (fun a b => a.datetime ≤ b.datetime) :=
    ⟨fun a b c hab hbc => le_trans hab hbc⟩
  exact List.sorted_insertionSort _ bars

/-- C10: `generate_signals` sorts the table ascending by datetime before
computing anything, so its trade proposals carry non-decreasing times, and
every proposal is built (by the stop/target/size formulas) from some bar
of the sorted table with some signal and ATR value. -/
theorem C10_generate_signals_time_order
    (predict : List (List ℚ) → List ℤ → List (List ℚ) → List ℤ) (sk : Bool)
    (prices : Option (List Strategy.Bar)) (p : Strategy.Params) :
    List.Pairwise (fun a b => a.time ≤ b.time) (Strategy.generate_signals predict sk prices p)
    ∧ ∀ prop ∈ Strategy.generate_signals predict sk prices p,
        ∃ bar ∈ Strategy.sort_by_datetime (Strategy.resolve_prices prices), ∃ sig av,
          prop = Strategy.mk_proposal p sig bar av := by
  set df := Strategy.sort_by_datetime (Strategy.resolve_prices prices) with hdf
  set sigs := Strategy.risk_guard_stub
    (Strategy.rf_filter predict sk (Strategy.raw_signals df p) (Strategy.features_of df p) 50)
    with hsigs
  set rows := sigs.zip (df.zip (Strategy.atr df p.atr_period)) with hrows
  have hgen : Strategy.generate_signals predict sk prices p =
      Strategy.entry_loop p rows 0 [p.equity] := rfl
  have hsub : (rows.map (fun r => r.2.1)).Sublist df := by
    have h1 := map_snd_zip_sublist sigs (df.zip (Strategy.atr df p.atr_period))
    have h2 := map_fst_zip_sublist df (Strategy.atr df p.atr_period)
    have h3 : rows.map (fun r => r.2.1) = (rows.map Prod.snd).map Prod.fst := by
      simp [List.map_map]
    rw [h3]
    exact (h1.map Prod.fst).trans h2
  constructor
  · have hpw : List.Pairwise (fun a b : ℤ => a ≤ b) (df.map (fun b => b.datetime)) := by
      rw [List.pairwise_map]
      exact sort_by_datetime_pairwise _
    have hpw2 : List.Pairwise (fun a b : ℤ => a ≤ b) (rows.map (fun r => r.2.1.datetime)) := by
      have h4 : rows.map (fun r => r.2.1.datetime)
          = (rows.map (fun r => r.2.1)).map (fun b => b.datetime) := by
        simp [List.map_map]
      rw [h4]
      exact List.Pairwise.sublist (hsub.map _) hpw
    have hpw3 := List.Pairwise.sublist (entry_loop_times_sublist p rows 0 [p.equity]) hpw2
    rw [hgen]
    exact List.pairwise_map.mp hpw3
  · intro prop hmem
    rw [hgen] at hmem
    obtain ⟨r, hr, av, heq, hav, hpropeq⟩ := entry_loop_mem p rows 0 [p.equity] prop hmem
    exact ⟨r.2.1, hsub.subset (List.mem_map_of_mem _ hr), r.1, av, hpropeq⟩

/-- True range of the demo table. -/
theorem demo_true_range :
    Strategy.true_range Strategy.demoBars = [3 / 20, 9 / 20, 9 / 20] := by
  norm_num [Strategy.true_range, Strategy.demoBars, Strategy.demoBar0, Strategy.demoBar1,
    Strategy.demoBar2, max_def, abs]

/-- ATR with period 1 over the demo table: each bar's own true range. -/
theorem demo_atr1 :
    Strategy.atr Strategy.demoBars 1 = [some (3 / 20), some (9 / 20), some (9 / 20)] := by
  rw [Strategy.atr, Strategy.rolling_mean, demo_true_range]
  norm_num [List.range_succ]

/-- Bar 2 also satisfies the short-entry condition under the ATR-period-1
parameters (the entry masks do not read the ATR period). -/
theorem demo1_short_entry_2 :
    Strategy.short_entry Strategy.demoBars Strategy.demoParams1 2 = true :=
  demo_short_entry_2

/-- Bars 0 and 1 of the demo table compose to signal 0 (no engulfing). -/
theorem demo1_no_signal_01 :
    Strategy.raw_signal Strategy.demoBars Strategy.demoParams1 0 = 0
    ∧ Strategy.raw_signal Strategy.demoBars Strategy.demoParams1 1 = 0 := by
  constructor <;>
    simp [Strategy.raw_signal, Strategy.short_entry, Strategy.long_entry, demo_engulfing]

/-- Bar 2 composes to signal −1 under the ATR-period-1 parameters. -/
theorem demo1_signal_2 :
    Strategy.raw_signal Strategy.demoBars Strategy.demoParams1 2 = -1 := by
  rw [Strategy.raw_signal, demo1_short_entry_2]
  simp

/-- The raw signal array of the demo run. -/
theorem demo1_raw_signals :
    Strategy.raw_signals Strategy.demoBars Strategy.demoParams1 = [0, 0, -1] := by
  rw [Strategy.raw_signals]
  have hlen : Strategy.demoBars.length = 3 := rfl
  rw [hlen]
  norm_num [List.range_succ, demo1_no_signal_01.1, demo1_no_signal_01.2, demo1_signal_2]

/-- The demo table is already sorted by datetime. -/
theorem demo_sorted :
    Strategy.sort_by_datetime Strategy.demoBars = Strategy.demoBars := by
  norm_num [Strategy.sort_by_datetime, List.insertionSort, List.orderedInsert,
    Strategy.demoBars, Strategy.demoBar0, Strategy.demoBar1, Strategy.demoBar2]

/-- The learned filter passes the three demo signals through (three rows
never exceed the call-site `train_size = 50`). -/
theorem demo1_rf :
    Strategy.rf_filter Strategy.predict0 true [0, 0, -1]
      (Strategy.features_of Strategy.demoBars Strategy.demoParams1) 50 = [0, 0, -1] := by
  simp [Strategy.rf_filter]

/-- The full demo pipeline run: one short proposal, from bar 2. -/
theorem demo_generate :
    Strategy.generate_signals Strategy.predict0 true (some Strategy.demoBars)
        Strategy.demoParams1
      = [Strategy.mk_proposal Strategy.demoParams1 (-1) Strategy.demoBar2 (9 / 20)] := by
  rw [Strategy.generate_signals]
  simp only [Strategy.resolve_prices, demo_sorted, Strategy.risk_guard_stub]
  have hap : Strategy.demoParams1.atr_period = 1 := rfl
  rw [hap, demo1_raw_signals, demo1_rf, demo_atr1]
  norm_num [Strategy.entry_loop, Strategy.demoBars, Strategy.daily_drawdown_guard,
    Strategy.list_min, Strategy.demoParams1, Strategy.demoParams]

/-- C10 witness: the proposal of the demo run is built from a bar of the
sorted table. -/
theorem C10_generate_signals_time_order_witness :
    ∃ bar ∈ Strategy.sort_by_datetime (Strategy.resolve_prices (some Strategy.demoBars)),
      ∃ sig av, Strategy.mk_proposal Strategy.demoParams1 (-1) Strategy.demoBar2 (9 / 20)
        = Strategy.mk_proposal Strategy.demoParams1 sig bar av :=
  (C10_generate_signals_time_order Strategy.predict0 true (some Strategy.demoBars)
      Strategy.demoParams1).2 _ (by rw [demo_generate]; exact List.mem_singleton_self _)
